import Mathlib

/-!
# Verification of the PS/2 GPIO bit-banged driver

Shallow embedding of `src/app/module/drivers/ps2/ps2_gpio.c` (ZMK fork).
The driver implements the PS/2 serial protocol by hand over two GPIO
lines: a receive state machine fed one sampled bit per falling clock
edge, a transmit state machine driven by `ps2_gpio_write_byte`, a FIFO
delivery queue and an optional callback listener.

Machine integers are modelled as `Nat` with explicit `% 2^w` truncation
where the C code stores into a fixed-width field.  Line levels are the
`Nat` values 0/1 returned by `gpio_pin_get`.  Calls into the GPIO layer
(`gpio_pin_set`) and blocking delays (`k_sleep`) are recorded as an
explicit `Action` trace.  Bytes handed to `ps2_gpio_process_received_byte`
and bytes passed to the registered callback are likewise returned as
explicit lists so that theorems can count deliveries.
-/

namespace Ps2Gpio

/-- The two physical GPIO pins of the driver: the clock pin (bound to the
`scl_gpios` devicetree property) and the data pin (`sda_gpios`). -/
inductive Pin
  | scl
  | sda
deriving DecidableEq, Repr

/-- An observable side effect on the line interface: driving a pin to a
level via `gpio_pin_set`, or a blocking `k_sleep` delay in microseconds. -/
inductive Action
  | setPin : Pin → Nat → Action
  | sleepUs : Nat → Action
deriving DecidableEq, Repr

/-- Model of `ps2_gpio_mode`: transfer mode selecting the state machine that
interprets falling clock edges. -/
inductive Mode
  | read
  | write
deriving DecidableEq, Repr

/-- The mutable driver state `struct ps2_gpio_data` (the fields the
protocol engine reads or writes).  `callback_isr` models whether a
callback pointer is registered (non-NULL); the queue holds byte values
in FIFO order (head = oldest). -/
structure State where
  mode : Mode
  callback_isr : Bool
  callback_enabled : Bool
  data_queue : List Nat
  cur_read_byte : Nat
  cur_read_pos : Nat
  write_buffer : Nat
  cur_write_pos : Nat
deriving DecidableEq, Repr

/-- The static initializer of `ps2_gpio_data` (lines 77-90 of the source). -/
def init_state : State :=
  { mode := Mode.read
    callback_isr := false
    callback_enabled := false
    data_queue := []
    cur_read_byte := 0
    cur_read_pos := 0
    write_buffer := 0
    cur_write_pos := 0 }

/-- PS2_GPIO_POS_START -/
def POS_START : Nat := 0

/-- PS2_GPIO_POS_PARITY -/
def POS_PARITY : Nat := 9

/-- PS2_GPIO_POS_STOP -/
def POS_STOP : Nat := 10

/-- PS2_GPIO_POS_ACK (write mode only) -/
def POS_ACK : Nat := 11

/-- PS2_GPIO_TIMEOUT_READ = K_SECONDS(2), in milliseconds. -/
def TIMEOUT_READ_MS : Nat := 2000

/-- Zephyr errno value EINVAL. -/
def EINVAL : Int := 22

/-- Zephyr errno value ETIMEDOUT. -/
def ETIMEDOUT : Int := 116

/-- PS2_GPIO_GET_BIT(data, bit_pos) = (data >> bit_pos) & 0x1 -/
def getBit (data bit_pos : Nat) : Nat := (data >>> bit_pos) &&& 1

/-- PS2_GPIO_SET_BIT on a uint8_t field: data |= bit_val << bit_pos,
truncated to the 8-bit storage. -/
def setBit8 (data bit_val bit_pos : Nat) : Nat :=
  (data ||| (bit_val <<< bit_pos)) % 256

/-- PS2_GPIO_SET_BIT on the uint16_t write_buffer field. -/
def setBit16 (data bit_val bit_pos : Nat) : Nat :=
  (data ||| (bit_val <<< bit_pos)) % 65536

/-- Sum of the low `w` bits of `n` (its set-bit count when `n < 2 ^ w`). -/
def bitsSum (n w : Nat) : Nat :=
  ((List.range w).map (fun i => (n >>> i) &&& 1)).sum

/-- Model of `__builtin_parity`: parity of the set-bit count of a 32-bit value
(1 when the number of set bits is odd, 0 when even). -/
def builtinParity (n : Nat) : Nat := bitsSum n 32 % 2

/-- Number of set bits among the 8 data bits of a byte (spec-side
measure used to state the parity claims). -/
def setBitCount (b : Nat) : Nat := bitsSum b 8

/-
 * Bit codec
-/

/-- Model of `ps2_gpio_get_byte_parity`: the odd-parity bit the transmitter puts
in the frame, `!__builtin_parity(byte)` converted to a bit value. -/
def get_byte_parity (byte : Nat) : Nat :=
  if builtinParity byte = 0 then 1 else 0

/-- Model of `ps2_gpio_check_parity(byte, parity_bit_val)`: returns false ("do
not match") when `__builtin_parity(byte)` equals the sampled parity bit,
true ("match") otherwise. -/
def check_parity (byte parity_bit_val : Nat) : Bool :=
  if builtinParity byte = parity_bit_val then false else true

/-- The 11-bit frame `ps2_gpio_write_byte` assembles into
`write_buffer`: start bit 0 at position 0, the 8 data bits LSB-first at
positions 1-8, the odd-parity bit at position 9, stop bit 1 at
position 10 (source lines 276-289). -/
def encode_byte (byte : Nat) : Nat :=
  let byte_parity := get_byte_parity byte
  let wb := 0
  let wb := setBit16 wb 0 0
  let wb := setBit16 wb (getBit byte 0) 1
  let wb := setBit16 wb (getBit byte 1) 2
  let wb := setBit16 wb (getBit byte 2) 3
  let wb := setBit16 wb (getBit byte 3) 4
  let wb := setBit16 wb (getBit byte 4) 5
  let wb := setBit16 wb (getBit byte 5) 6
  let wb := setBit16 wb (getBit byte 6) 7
  let wb := setBit16 wb (getBit byte 7) 8
  let wb := setBit16 wb byte_parity 9
  let wb := setBit16 wb 1 10
  wb

/-- The 11 successive line levels of the encoded frame of `byte`, in
transmission order (frame bit 0 first). -/
def encode_frame (byte : Nat) : List Nat :=
  (List.range 11).map (fun i => getBit (encode_byte byte) i)

/-
 * Transmit helpers
-/

/-- Model of `ps2_gpio_set_scl(state)`: despite its name and its "Seting scl" log
message, the source calls `gpio_pin_set(data->sda_gpio, config->sda_pin,
state)` (line 121), so it drives the DATA pin. -/
def set_scl (level : Nat) : List Action := [Action.setPin Pin.sda level]

/-- Model of `ps2_gpio_set_sda(state)`: despite its name, the source calls
`gpio_pin_set(data->scl_gpio, config->scl_pin, state)` (line 130), so it
drives the CLOCK pin. -/
def set_sda (level : Nat) : List Action := [Action.setPin Pin.scl level]

/-- Model of `ps2_gpio_send_byte`: an unimplemented stub.  It logs "Not
implemented", performs no state change and no line activity, and
returns -1. -/
def send_byte (_byte : Nat) : Int × List Action := (-1, [])

/-- Model of `ps2_gpio_send_cmd_resend`: sends the reserved resend command byte
0xFE through `ps2_gpio_send_byte`. -/
def send_cmd_resend : Int × List Action := send_byte 0xfe

/-
 * Receive state machine
-/

/-- Model of `ps2_gpio_process_received_byte`: route a successfully decoded byte.
Returns the new state and the list of bytes passed to the registered
callback (empty when the byte was enqueued instead). -/
def process_received_byte (s : State) (byte : Nat) : State × List Nat :=
  if s.callback_isr = true ∧ s.callback_enabled = true then
    (s, [byte])
  else
    ({ s with data_queue := s.data_queue ++ [byte] }, [])

/-- Model of `ps2_gpio_abort_read`: issue a resend request and reset the receive
accumulator.  Returns the new state, the propagated error code of the
resend path, and the line actions that path produced. -/
def abort_read (s : State) : State × Int × List Action :=
  let r := send_cmd_resend
  ({ s with cur_read_pos := 0, cur_read_byte := 0 }, r.1, r.2)

/-- Result of one falling-edge event: the new state, the bytes handed to
`ps2_gpio_process_received_byte` (the deliver calls), and the line
actions emitted. -/
structure EdgeOut where
  state : State
  delivered : List Nat
  actions : List Action
deriving DecidableEq, Repr

/-- Model of `ps2_gpio_scl_interrupt_falling_read_bit` with `sda_val` the sampled
data-line level (`ps2_gpio_get_sda`, correctly wired to the data pin). -/
def scl_interrupt_falling_read_bit (s : State) (sda_val : Nat) : EdgeOut :=
  if s.cur_read_pos = POS_START then
    if sda_val ≠ 0 then
      let a := abort_read s
      { state := a.1, delivered := [], actions := a.2.2 }
    else
      { state := { s with cur_read_pos := s.cur_read_pos + 1 }
        delivered := [], actions := [] }
  else if s.cur_read_pos = POS_PARITY then
    if check_parity s.cur_read_byte sda_val ≠ true then
      let a := abort_read s
      { state := a.1, delivered := [], actions := a.2.2 }
    else
      { state := { s with cur_read_pos := s.cur_read_pos + 1 }
        delivered := [], actions := [] }
  else if s.cur_read_pos = POS_STOP then
    if sda_val ≠ 1 then
      let a := abort_read s
      { state := a.1, delivered := [], actions := a.2.2 }
    else
      let p := process_received_byte s s.cur_read_byte
      { state := { p.1 with cur_read_pos := 0, cur_read_byte := 0 }
        delivered := [s.cur_read_byte], actions := [] }
  else
    let bit_pos := s.cur_read_pos - 1
    { state := { s with
        cur_read_byte := setBit8 s.cur_read_byte sda_val bit_pos
        cur_read_pos := s.cur_read_pos + 1 }
      delivered := [], actions := [] }

/-
 * Transmit state machine
-/

/-- Model of `ps2_gpio_write_byte`: assemble the frame into the write buffer,
pull the "clock" low (actually the data pin, see `set_scl`), sleep
110 microseconds, switch to Write mode abandoning any in-progress read,
output the start bit, advance the write position, release the "clock". -/
def write_byte (s : State) (byte : Nat) : State × List Action :=
  let wb := encode_byte byte
  let acts :=
    set_scl 0 ++ [Action.sleepUs 110] ++ set_sda (getBit wb 0) ++ set_scl 1
  ({ s with
      write_buffer := wb
      cur_write_pos := 0 + 1
      mode := Mode.write
      cur_read_byte := 0
      cur_read_pos := 0 },
   acts)

/-- Model of `ps2_gpio_scl_interrupt_falling_write_bit`: output the frame bit at
the current write position (through `set_sda`, i.e. on the clock pin)
and advance. -/
def scl_interrupt_falling_write_bit (s : State) : State × List Action :=
  let data_bit := getBit s.write_buffer s.cur_write_pos
  ({ s with cur_write_pos := s.cur_write_pos + 1 }, set_sda data_bit)

/-- Model of `ps2_gpio_scl_interrupt_rising_check_write_ack`: sample the ack bit
(only logged), then reset mode to Read, clear the write buffer and the
write position — for ack value 0 and 1 alike. -/
def scl_interrupt_rising_check_write_ack (s : State) (_ack_val : Nat) : State :=
  { s with mode := Mode.read, write_buffer := 0, cur_write_pos := 0 }

/-
 * Interrupt handlers
-/

/-- Model of `ps2_gpio_scl_interrupt_falling_handler`: dispatch on the transfer
mode. -/
def scl_interrupt_falling_handler (s : State) (sda_val : Nat) : EdgeOut :=
  if s.mode = Mode.read then
    scl_interrupt_falling_read_bit s sda_val
  else
    let w := scl_interrupt_falling_write_bit s
    { state := w.1, delivered := [], actions := w.2 }

/-- Model of `ps2_gpio_scl_interrupt_rising_handler`: ack check only when the
write position sits at PS2_GPIO_POS_ACK. -/
def scl_interrupt_rising_handler (s : State) (sda_val : Nat) : State :=
  if s.cur_write_pos = POS_ACK then
    scl_interrupt_rising_check_write_ack s sda_val
  else
    s

/-- Feed a list of sampled data-line levels, one per falling clock edge,
accumulating the deliver calls in order. -/
def run_falling (s : State) (bits : List Nat) : State × List Nat :=
  bits.foldl
    (fun acc bit =>
      let o := scl_interrupt_falling_handler acc.1 bit
      (o.state, acc.2 ++ o.delivered))
    (s, [])

/-
 * Zephyr PS/2 driver interface
-/

/-- Model of `k_fifo_get` on the delivery queue with a timeout: the head when one
is queued; `none` after the timeout expires on an empty queue with no
producer. -/
def k_fifo_get (q : List Nat) (_timeout_ms : Nat) : Option Nat × List Nat :=
  match q with
  | [] => (none, [])
  | b :: rest => (some b, rest)

/-- Model of `ps2_gpio_read`: blocking dequeue with PS2_GPIO_TIMEOUT_READ;
returns 0 and the byte, or -ETIMEDOUT and no byte. -/
def ps2_read (s : State) : State × Int × Option Nat :=
  match k_fifo_get s.data_queue TIMEOUT_READ_MS with
  | (none, _) => (s, -ETIMEDOUT, none)
  | (some b, rest) => ({ s with data_queue := rest }, 0, some b)

/-- Model of `ps2_gpio_write` (the driver-API write): an unimplemented stub that
logs and returns 0, touching no state and driving no line. -/
def ps2_write (s : State) (_value : Nat) : State × Int × List Action :=
  (s, 0, [])

/-- Model of `ps2_gpio_empty_data_queue`: pop until the FIFO is empty. -/
def empty_data_queue (s : State) : State :=
  { s with data_queue := [] }

/-- Model of `ps2_gpio_disable_callback`: flush the queue, then clear the enabled
flag; returns 0. -/
def disable_callback (s : State) : State × Int :=
  let s := empty_data_queue s
  ({ s with callback_enabled := false }, 0)

/-- Model of `ps2_gpio_enable_callback`: set the enabled flag, then flush the
queue; returns 0. -/
def enable_callback (s : State) : State × Int :=
  let s := { s with callback_enabled := true }
  (empty_data_queue s, 0)

/-- Model of `ps2_gpio_configure`: reject a NULL callback with -EINVAL, otherwise
register it and enable the callback. -/
def configure (s : State) (callback_isr : Bool) : State × Int :=
  if callback_isr = false then
    (s, -EINVAL)
  else
    let s := { s with callback_isr := callback_isr }
    ((enable_callback s).1, 0)

/-- Model of `ps2_gpio_driver_api`: the operations exposed through the Zephyr
PS/2 driver API structure (source lines 460-466). -/
structure DriverApi where
  config : State → Bool → State × Int
  read : State → State × Int × Option Nat
  write : State → Nat → State × Int × List Action
  dis_callback : State → State × Int
  en_callback : State → State × Int

/-- The concrete API table the driver registers. -/
def ps2_gpio_driver_api : DriverApi :=
  { config := configure
    read := ps2_read
    write := ps2_write
    dis_callback := disable_callback
    en_callback := enable_callback }

/-
 * Event-level semantics (for reachability invariants)
-/

/-- An externally triggered event of the engine: a clock edge with the
sampled data-line level, a transmit request, or a driver-API call. -/
inductive Event
  | fallingEdge (sda_val : Nat)
  | risingEdge (sda_val : Nat)
  | writeByte (byte : Nat)
  | apiRead
  | apiWrite (value : Nat)
  | apiEnableCallback
  | apiDisableCallback
  | apiConfigure (callback_isr : Bool)

/-- State transformer of one event. -/
def step (s : State) : Event → State
  | Event.fallingEdge v => (scl_interrupt_falling_handler s v).state
  | Event.risingEdge v => scl_interrupt_rising_handler s v
  | Event.writeByte b => (write_byte s b).1
  | Event.apiRead => (ps2_read s).1
  | Event.apiWrite v => (ps2_write s v).1
  | Event.apiEnableCallback => (enable_callback s).1
  | Event.apiDisableCallback => (disable_callback s).1
  | Event.apiConfigure cb => (configure s cb).1

/-- Run a sequence of events from a state. -/
def run_events (s : State) (es : List Event) : State :=
  es.foldl step s

/-- Receive-accumulator invariant: whenever the read position expects a
start bit, the accumulator byte is clear. -/
def ReadInv (s : State) : Prop :=
  s.cur_read_pos = 0 → s.cur_read_byte = 0

instance (s : State) : Decidable (ReadInv s) := by
  unfold ReadInv
  infer_instance

/-
 * Claim theorems
-/

set_option maxRecDepth 100000

/-- C1: for every byte b in 0..255, feeding the 11 bits of the encoded
frame of b (start 0, data LSB-first, odd parity, stop 1) one bit per
falling clock edge from the initial receive state causes exactly one
deliver call, with the delivered byte b, and leaves the receive machine
at position 0 with accumulator byte 0. -/
theorem receive_roundtrip_delivers_byte (b : Nat) (hb : b < 256) :
    (run_falling init_state (encode_frame b)).2 = [b] ∧
    (run_falling init_state (encode_frame b)).1.cur_read_pos = 0 ∧
    (run_falling init_state (encode_frame b)).1.cur_read_byte = 0 := by
  revert b
  decide

/-- Witness for C1 at the representative keycode 0x1C. -/
theorem receive_roundtrip_delivers_byte_witness :
    (0x1C : Nat) < 256 ∧
    ((run_falling init_state (encode_frame 0x1C)).2 = [0x1C] ∧
     (run_falling init_state (encode_frame 0x1C)).1.cur_read_pos = 0 ∧
     (run_falling init_state (encode_frame 0x1C)).1.cur_read_byte = 0) :=
  ⟨by decide, receive_roundtrip_delivers_byte 0x1C (by decide)⟩

/-- C2 (counter-evidence): the write transaction for 0xFE does NOT pull
the clock pin low first.  The emitted trace drives the DATA pin low for
the 110 microsecond request-to-send (because `ps2_gpio_set_scl` writes
to the sda pin), then outputs the start bit on the CLOCK pin (because
`ps2_gpio_set_sda` writes to the scl pin), then raises the DATA pin;
likewise the first device-clocked falling edge in Write mode outputs
frame bit 1 of 0xFE (a 0) on the CLOCK pin. -/
theorem write_request_drives_swapped_pins :
    (write_byte init_state 0xFE).2 =
      [Action.setPin Pin.sda 0, Action.sleepUs 110,
       Action.setPin Pin.scl 0, Action.setPin Pin.sda 1] ∧
    (scl_interrupt_falling_write_bit (write_byte init_state 0xFE).1).2 =
      [Action.setPin Pin.scl 0] := by
  decide

/-- C3: the parity bit computed for b equals 1 exactly when b has an
even number of set bits, the 9 bits (8 data bits plus parity) always
hold an odd number of set bits, and check_parity accepts a sampled bit
value exactly when it equals the computed odd-parity bit. -/
theorem parity_bit_and_check (b : Nat) (hb : b < 256) :
    (get_byte_parity b = 1 ↔ setBitCount b % 2 = 0) ∧
    (setBitCount b + get_byte_parity b) % 2 = 1 ∧
    (∀ p : Nat, p ≤ 1 → (check_parity b p = true ↔ p = get_byte_parity b)) := by
  revert b
  decide

/-- Witness for C3 at b = 0x1C (three set bits, so parity bit 0). -/
theorem parity_bit_and_check_witness :
    (0x1C : Nat) < 256 ∧
    ((get_byte_parity 0x1C = 1 ↔ setBitCount 0x1C % 2 = 0) ∧
     (setBitCount 0x1C + get_byte_parity 0x1C) % 2 = 1 ∧
     (∀ p : Nat, p ≤ 1 → (check_parity 0x1C p = true ↔ p = get_byte_parity 0x1C))) :=
  ⟨by decide, parity_bit_and_check 0x1C (by decide)⟩

/-- C4: a falling edge in Read mode with an invalid start bit at
position 0, a failed parity check at position 9, or an invalid stop bit
at position 10 aborts the frame: no deliver call is made and the receive
machine is reset to position 0 with accumulator byte 0. -/
theorem falling_read_invalid_bit_aborts (s : State) (v : Nat)
    (hmode : s.mode = Mode.read)
    (habort :
      (s.cur_read_pos = POS_START ∧ v ≠ 0) ∨
      (s.cur_read_pos = POS_PARITY ∧ check_parity s.cur_read_byte v = false) ∨
      (s.cur_read_pos = POS_STOP ∧ v ≠ 1)) :
    (scl_interrupt_falling_handler s v).delivered = [] ∧
    (scl_interrupt_falling_handler s v).state.cur_read_pos = 0 ∧
    (scl_interrupt_falling_handler s v).state.cur_read_byte = 0 := by
  rcases habort with ⟨hpos, hv⟩ | ⟨hpos, hv⟩ | ⟨hpos, hv⟩ <;>
    simp [scl_interrupt_falling_handler, scl_interrupt_falling_read_bit,
      abort_read, send_cmd_resend, send_byte, hmode, hpos, hv,
      POS_START, POS_PARITY, POS_STOP]

/-- Witness for C4: an invalid start bit (level 1 at position 0) from
the initial state aborts without delivering. -/
theorem falling_read_invalid_bit_aborts_witness :
    init_state.mode = Mode.read ∧
    (init_state.cur_read_pos = POS_START ∧ (1 : Nat) ≠ 0) ∧
    ((scl_interrupt_falling_handler init_state 1).delivered = [] ∧
     (scl_interrupt_falling_handler init_state 1).state.cur_read_pos = 0 ∧
     (scl_interrupt_falling_handler init_state 1).state.cur_read_byte = 0) :=
  ⟨by decide, ⟨by decide, by decide⟩,
   falling_read_invalid_bit_aborts init_state 1 (by decide)
     (Or.inl ⟨by decide, by decide⟩)⟩

/-- C5 (counter-evidence): the abort path routes the resend request to
`ps2_gpio_send_byte`, which is an unimplemented stub: it returns -1 and
produces no line activity whatsoever, so no write transaction carrying
0xFE ever reaches the device.  The reset of the receive machine and the
absence of any deliver call do hold (the -1 is swallowed by the
interrupt handler). -/
theorem abort_resend_is_unimplemented_stub :
    scl_interrupt_falling_read_bit init_state 1 =
      { state := init_state, delivered := [], actions := [] } ∧
    send_cmd_resend = send_byte 0xfe ∧
    send_byte 0xfe = (-1, []) := by
  decide

/-- C6: deliver dispatch — with a registered and enabled callback the
listener is invoked exactly once with the byte and nothing is enqueued;
otherwise the byte is appended to the delivery queue and no listener is
invoked. -/
theorem process_received_byte_dispatch (s : State) (b : Nat) :
    (s.callback_isr = true ∧ s.callback_enabled = true →
      process_received_byte s b = (s, [b])) ∧
    (s.callback_isr = false ∨ s.callback_enabled = false →
      process_received_byte s b =
        ({ s with data_queue := s.data_queue ++ [b] }, [])) := by
  constructor
  · intro h
    simp [process_received_byte, h.1, h.2]
  · intro h
    have hne : ¬(s.callback_isr = true ∧ s.callback_enabled = true) := by
      rcases h with h | h <;> simp [h]
    simp [process_received_byte, hne]

/-- Witness for C6: both dispatch branches at concrete states. -/
theorem process_received_byte_dispatch_witness :
    (process_received_byte
        { init_state with callback_isr := true, callback_enabled := true } 5 =
      ({ init_state with callback_isr := true, callback_enabled := true }, [5])) ∧
    (process_received_byte init_state 5 =
      ({ init_state with data_queue := [5] }, [])) :=
  ⟨(process_received_byte_dispatch
      { init_state with callback_isr := true, callback_enabled := true } 5).1
      ⟨rfl, rfl⟩,
   (process_received_byte_dispatch init_state 5).2 (Or.inl rfl)⟩

/-- C7: read with a non-empty delivery queue returns 0 and the oldest
queued byte, leaving the rest in order; read on an empty queue with no
byte arriving returns the distinct error -ETIMEDOUT and no byte, the
wait being bounded by the 2000 ms constant PS2_GPIO_TIMEOUT_READ. -/
theorem read_returns_fifo_or_timeout (s : State) :
    (∀ b rest, s.data_queue = b :: rest →
      ps2_read s = ({ s with data_queue := rest }, 0, some b)) ∧
    (s.data_queue = [] →
      ps2_read s = (s, -ETIMEDOUT, none) ∧ TIMEOUT_READ_MS = 2000) := by
  constructor
  · intro b rest h
    simp [ps2_read, k_fifo_get, h]
  · intro h
    simp [ps2_read, k_fifo_get, h, TIMEOUT_READ_MS]

/-- Witness for C7: a queue holding 3 then 4 yields 3 first, and the
empty initial queue times out. -/
theorem read_returns_fifo_or_timeout_witness :
    ({ init_state with data_queue := [3, 4] } : State).data_queue = 3 :: [4] ∧
    (ps2_read { init_state with data_queue := [3, 4] } =
      ({ init_state with data_queue := [4] }, 0, some 3)) ∧
    init_state.data_queue = [] ∧
    (ps2_read init_state = (init_state, -ETIMEDOUT, none) ∧
      TIMEOUT_READ_MS = 2000) :=
  ⟨rfl,
   (read_returns_fifo_or_timeout { init_state with data_queue := [3, 4] }).1
      3 [4] rfl,
   rfl,
   (read_returns_fifo_or_timeout init_state).2 rfl⟩

/-- C8: for every prior queue content, enabling as well as disabling the
callback empties the delivery queue and returns 0, and a read issued
right after either toggle can never observe a stale byte. -/
theorem callback_toggle_flushes_queue (s : State) :
    (enable_callback s).1.data_queue = [] ∧ (enable_callback s).2 = 0 ∧
    (disable_callback s).1.data_queue = [] ∧ (disable_callback s).2 = 0 ∧
    (enable_callback s).1.callback_enabled = true ∧
    (disable_callback s).1.callback_enabled = false ∧
    (ps2_read (enable_callback s).1).2.2 = none ∧
    (ps2_read (disable_callback s).1).2.2 = none := by
  simp [enable_callback, disable_callback, empty_data_queue, ps2_read,
    k_fifo_get]

/-- C9: the driver-API write is a stub: it returns 0 unconditionally,
emits no line action and leaves the whole driver state unchanged, while
the actual transmit-sequence implementation `ps2_gpio_write_byte` always
emits line actions and switches the mode to Write — so the API write
cannot be invoking it. -/
theorem api_write_is_inert_stub (s : State) (v : Nat) :
    ps2_gpio_driver_api.write s v = (s, 0, []) ∧
    ps2_gpio_driver_api.write = ps2_write ∧
    (write_byte s v).2 ≠ [] ∧
    (write_byte s v).1.mode = Mode.write := by
  refine ⟨rfl, rfl, ?_, rfl⟩
  simp [write_byte, set_scl, set_sda]

/-- Helper for C10: one falling edge handled in Read mode always leaves
a state satisfying the accumulator invariant. -/
theorem falling_read_bit_read_inv (s : State) (v : Nat) :
    ReadInv (scl_interrupt_falling_read_bit s v).state := by
  unfold scl_interrupt_falling_read_bit
  repeat' split
  all_goals intro h
  all_goals simp_all [ReadInv, abort_read, process_received_byte]

/-- Helper for C10: every event of the engine preserves the accumulator
invariant. -/
theorem step_preserves_read_inv (s : State) (e : Event) (h : ReadInv s) :
    ReadInv (step s e) := by
  cases e with
  | fallingEdge v =>
      by_cases hm : s.mode = Mode.read
      · simpa [step, scl_interrupt_falling_handler, hm] using
          falling_read_bit_read_inv s v
      · simp_all [step, scl_interrupt_falling_handler, hm,
          scl_interrupt_falling_write_bit, ReadInv]
  | risingEdge v =>
      simp_all [step, scl_interrupt_rising_handler,
        scl_interrupt_rising_check_write_ack, ReadInv]
      split <;> simp_all
  | writeByte b =>
      simp [step, write_byte, ReadInv]
  | apiRead =>
      simp only [step, ps2_read]
      cases hq : k_fifo_get s.data_queue TIMEOUT_READ_MS with
      | mk o rest =>
          cases o <;> simp_all [ReadInv]
  | apiWrite v =>
      simpa [step, ps2_write] using h
  | apiEnableCallback =>
      simp_all [step, enable_callback, empty_data_queue, ReadInv]
  | apiDisableCallback =>
      simp_all [step, disable_callback, empty_data_queue, ReadInv]
  | apiConfigure cb =>
      by_cases hcb : cb = false <;>
        simp_all [step, configure, enable_callback, empty_data_queue, ReadInv]

/-- Helper for C10: the invariant propagates along any event list. -/
theorem run_events_read_inv (es : List Event) (s : State) (h : ReadInv s) :
    ReadInv (run_events s es) := by
  induction es generalizing s with
  | nil => simpa [run_events] using h
  | cons e es ih =>
      have : run_events s (e :: es) = run_events (step s e) es := rfl
      rw [this]
      exact ih (step s e) (step_preserves_read_inv s e h)

/-- C10: in every state reachable from the initial state by falling and
rising edges, write transactions and driver-API calls, a read position
of 0 implies the read accumulator byte is 0. -/
theorem reachable_states_read_inv (es : List Event) :
    ReadInv (run_events init_state es) :=
  run_events_read_inv es init_state (by decide)

end Ps2Gpio
